import Mathlib

/-!
Verification development for the Subscription Tracker API.

The embedding covers the three specified cores:
  - the Subscription pre-save lifecycle rule and the renewalDate validator
    (subscription schema file),
  - the Account Manager signUp / signIn / signOut flows (auth controller file),
  - the Error Normalizer (src/middleware/error.js).

Dates: the controller and schema manipulate JavaScript Date values through
getDate/setDate, getMonth/setMonth, getFullYear/setFullYear and ordering
comparisons.  A Date is modelled as a civil calendar date (year, 0-based
month, 1-based day of month) plus the milliseconds elapsed within that day;
the JavaScript auto-normalisation performed by the setters is modelled with
the standard civil-from-days / days-from-civil algorithms over Int.
-/

/-- A JavaScript Date: civil year, 0-based month (as getMonth), 1-based day
of month (as getDate), and milliseconds within the day (time of day, which
the setters used by the code preserve). -/
structure JSDate where
  year : Int
  month : Int
  day : Int
  ms : Int
deriving Repr, DecidableEq

/-- Day number of the first day of month m (1-based, in [1,12]) of year y,
counted from the Unix epoch 1970-01-01 (standard civil calendar algorithm,
shifted so the year starts in March). -/
def monthStartDays (y m : Int) : Int :=
  let y2 := if m ≤ 2 then y - 1 else y
  let era := y2 / 400
  let yoe := y2 - era * 400
  let mp := if 2 < m then m - 3 else m + 9
  let doy := (153 * mp + 2) / 5
  era * 146097 + yoe * 365 + yoe / 4 - yoe / 100 + doy - 719468

/-- Day number from the epoch of civil date (y, m, d) with m 1-based in
[1,12]; d may lie outside [1, days-in-month] and simply offsets linearly. -/
def daysFromCivilAux (y m d : Int) : Int :=
  monthStartDays y m + (d - 1)

/-- Day number from the epoch with a 0-based month that may lie outside
[0,11]: the month is first folded into the year. -/
def daysFromCivilG (y m d : Int) : Int :=
  daysFromCivilAux (y + m / 12) (m % 12 + 1) d

/-- Civil date (year, 0-based month, 1-based day) of a day number counted
from the Unix epoch (standard civil calendar algorithm). -/
def civilFromDays (z0 : Int) : Int × Int × Int :=
  let z := z0 + 719468
  let era := z / 146097
  let doe := z - era * 146097
  let yoe := (doe - doe / 1460 + doe / 36524 - doe / 146096) / 365
  let y := yoe + era * 400
  let doy := doe - (365 * yoe + yoe / 4 - yoe / 100)
  let mp := (5 * doy + 2) / 153
  let d := doy - (153 * mp + 2) / 5 + 1
  let m := if mp < 10 then mp + 3 else mp - 9
  (if m ≤ 2 then y + 1 else y, m - 1, d)

/-- Rebuild a normalised JSDate from possibly out-of-range year/month/day
components, as the JavaScript Date setters do, keeping the time of day. -/
def jsNorm (y m d ms : Int) : JSDate :=
  let c := civilFromDays (daysFromCivilG y m d)
  ⟨c.1, c.2.1, c.2.2, ms⟩

/-- JavaScript setDate: replace the day of month by n and normalise. -/
def jsSetDate (dt : JSDate) (n : Int) : JSDate :=
  jsNorm dt.year dt.month n dt.ms

/-- JavaScript setMonth: replace the 0-based month by n and normalise. -/
def jsSetMonth (dt : JSDate) (n : Int) : JSDate :=
  jsNorm dt.year n dt.day dt.ms

/-- JavaScript setFullYear: replace the year by n and normalise. -/
def jsSetFullYear (dt : JSDate) (n : Int) : JSDate :=
  jsNorm n dt.month dt.day dt.ms

/-- Day number from the epoch of a JSDate. -/
def toDays (dt : JSDate) : Int :=
  daysFromCivilG dt.year dt.month dt.day

/-- Timestamp in milliseconds from the epoch; JavaScript Date comparisons
compare these values. -/
def timestamp (dt : JSDate) : Int :=
  toDays dt * 86400000 + dt.ms

/-- Advance a date by n civil days: specification-level formulation through
the day-number line, independent of the setDate mechanism of the code. -/
def addDays (dt : JSDate) (n : Int) : JSDate :=
  let c := civilFromDays (toDays dt + n)
  ⟨c.1, c.2.1, c.2.2, dt.ms⟩

/-- Month index on the unbounded month line (12 per year). -/
def monthIndex (dt : JSDate) : Int :=
  12 * dt.year + dt.month

/-- Advance a date by n calendar months: specification-level formulation
through the month line, keeping the day of month (with overflow into the
following month normalised, as JavaScript does). -/
def addCalendarMonths (dt : JSDate) (n : Int) : JSDate :=
  let t := monthIndex dt + n
  let c := civilFromDays (daysFromCivilAux (t / 12) (t % 12 + 1) dt.day)
  ⟨c.1, c.2.1, c.2.2, dt.ms⟩

/-- Advance a date by n calendar years: the year component moves by n and
the result is normalised (Feb 29 overflowing into Mar 1 off leap years). -/
def addCalendarYears (dt : JSDate) (n : Int) : JSDate :=
  let c := civilFromDays (daysFromCivilG (dt.year + n) dt.month dt.day)
  ⟨c.1, c.2.1, c.2.2, dt.ms⟩

/-!
The Subscription record, translated from the subscription schema file.
The frequency field is an optional string (the schema restricts it with an
enum validator, but the pre-save hook itself switches on the raw string, so
the embedding keeps the string to express the unrecognised branch).
-/

/-- A Subscription document as shaped by the subscription schema. -/
structure Subscription where
  name : Option String
  price : Int
  currency : String
  frequency : Option String
  category : String
  paymentMethod : String
  status : String
  startDate : JSDate
  renewalDate : Option JSDate
  user : String
deriving Repr, DecidableEq

/-- First half of the pre-save hook: when renewalDate is falsy, start from a
copy of startDate and advance it by one unit of frequency via the switch;
the default branch of the switch leaves the copy untouched. -/
def deriveRenewal (s : Subscription) : Subscription :=
  if s.renewalDate.isNone then
    let base := s.startDate
    let r :=
      if s.frequency = some "daily" then jsSetDate base (base.day + 1)
      else if s.frequency = some "weekly" then jsSetDate base (base.day + 7)
      else if s.frequency = some "monthly" then jsSetMonth base (base.month + 1)
      else if s.frequency = some "yearly" then jsSetFullYear base (base.year + 1)
      else base
    { s with renewalDate := some r }
  else s

/-- The pre-save hook of the subscription schema: derive renewalDate when
absent, then force the status to expired when the (possibly derived)
renewalDate lies strictly before the current instant. -/
def preSave (now : JSDate) (s : Subscription) : Subscription :=
  let s1 := deriveRenewal s
  match s1.renewalDate with
  | some r => if timestamp r < timestamp now then { s1 with status := "expired" } else s1
  | none => s1

/-- The renewalDate path validator of the schema: the value must compare
strictly greater than startDate.  The ODM only runs a non-required path
validator when the value is present, hence the none branch passes. -/
def validateRenewalDate (s : Subscription) : Bool :=
  match s.renewalDate with
  | none => true
  | some v => timestamp s.startDate < timestamp v

/-- The startDate path validator of the schema: the value must lie strictly
in the past at validation time. -/
def validateStartDate (now : JSDate) (s : Subscription) : Bool :=
  timestamp s.startDate < timestamp now

/-!
The Error Normalizer, translated from src/middleware/error.js.
-/

/-- Modelled from the spec: config/env.js is not among the source files; the
spec fixes the runtime-mode domain to development/production ("runtime mode
(development/production)"), so the NODE_ENV value consumed by the middleware
ranges over these two modes.  The check NODE_ENV === "development" of the
middleware is the equation with the development constructor. -/
inductive NodeEnv
  | development
  | production
deriving Repr, DecidableEq

/-- The shape of an error value reaching the middleware.  Optional fields
model properties that may be undefined on a JavaScript error object;
isCustomError models the instanceof CustomError test (the CustomError class
file is not among the sources; modelled from the spec, a domain error always
carries its status code and message, stored here in statusCode/message). -/
structure JsError where
  isCustomError : Bool
  statusCode : Option Int
  message : Option String
  name : Option String
  code : Option Int
  keyValue : Option (List (String × String))
  errors : List (String × String)
  stack : String
deriving Repr, DecidableEq

/-- JavaScript a || b over an optional number, where 0 is falsy. -/
def jsOrNum (o : Option Int) (d : Int) : Int :=
  match o with
  | some n => if n = 0 then d else n
  | none => d

/-- JavaScript a || b over an optional string, where the empty string is
falsy. -/
def jsOrStr (o : Option String) (d : String) : String :=
  match o with
  | some s => if s = "" then d else s
  | none => d

/-- Message of the duplicate-key branch: the first key of err.keyValue and
its value. -/
def dupKeyMessage (kv : Option (List (String × String))) : String :=
  match kv with
  | some ((f, v) :: _) => "Duplicate value for " ++ f ++ ": " ++ v
  | some [] => "Duplicate value for undefined: undefined"
  | none => "Duplicate value for undefined: undefined"

/-- The normalised HTTP error response assembled by the middleware.  The
stack and originalError keys are optional: none means the key is absent from
the response body. -/
structure ErrResponse where
  status : Int
  success : Bool
  message : String
  stack : Option String
  originalError : Option JsError
deriving Repr, DecidableEq

/-- The global error middleware of src/middleware/error.js: classify the
error in order (CustomError, CastError, duplicate key 11000 with keyValue,
ValidationError, fallback), then attach stack and originalError only in
development mode.  In the CustomError branch the code re-reads the raw
statusCode and message fields; a CustomError always carries both, so the
fallback expressions coincide with the raw reads there. -/
def errorMiddleware (env : NodeEnv) (err : JsError) : ErrResponse :=
  let statusCode := jsOrNum err.statusCode 500
  let message := jsOrStr err.message "Internal Server Error"
  let sm : Int × String :=
    if err.isCustomError then
      (statusCode, message)
    else if err.name = some "CastError" then
      (404, "Resource not found!")
    else if err.code = some 11000 ∧ err.keyValue.isSome then
      (400, dupKeyMessage err.keyValue)
    else if err.name = some "ValidationError" then
      (400, String.intercalate ", " (err.errors.map Prod.snd))
    else
      (statusCode, message)
  { status := sm.1
    success := false
    message := sm.2
    stack := if env = NodeEnv.development then some err.stack else none
    originalError := if env = NodeEnv.development then some err else none }

/-!
The Account Manager, translated from the auth controller file (signUp,
signIn, signOut).  The database is the list of persisted User records; the
transactional session of signUp is modelled by staging the created record
and applying it only at commit, and by a trace of session events.
-/

/-- Modelled from the spec: models/userModel.js is not among the source
files; per the data model a User carries a system-assigned identifier, name,
email and the stored credential hash in the password field. -/
structure UserRec where
  id : Nat
  name : String
  email : String
  password : String
deriving Repr, DecidableEq

/-- The persisted store: the collection of User records. -/
structure DB where
  users : List UserRec
deriving Repr, DecidableEq

/-- An error value thrown by a controller step: a domain CustomError with
status code and message (the CustomError class file is not among the
sources; modelled from the spec as a tagged pair), or any other runtime
error carrying a message. -/
inductive ErrVal
  | customError (statusCode : Int) (message : String)
  | jsRuntimeError (message : String)
deriving Repr, DecidableEq

/-- The Credential Hasher is a trusted primitive (spec non-goal); it is
modelled as a deterministic tagging of the password, so that the stored
value is distinguishable from the plaintext and the comparison primitive is
definable. -/
def modelHash (password : String) : String :=
  "bcrypt$" ++ password

/-- The one-way comparison primitive of the Credential Hasher: true exactly
when the stored value is the hash of the plaintext. -/
def modelCompare (plaintext stored : String) : Bool :=
  modelHash plaintext == stored

/-- The Token Issuer is a trusted primitive (spec non-goal); the signed
bearer token is modelled as a deterministic tagging of the embedded user
identifier. -/
def modelToken (uid : Nat) : String :=
  "jwt$" ++ toString uid

/-- System-assigned identifier for the next created record. -/
def freshId (db : DB) : Nat :=
  db.users.length

/-- Session events of the transactional scope, in the order they occur. -/
inductive SessEv
  | startSession
  | startTransaction
  | commitTransaction
  | abortTransaction
  | endSession
deriving Repr, DecidableEq

/-- Injectable failures for the fallible steps of signUp, to quantify over
every exception that the steps may raise. -/
structure StepFaults where
  findFault : Option ErrVal
  hashFault : Option ErrVal
  createFault : Option ErrVal
  signFault : Option ErrVal
  commitFault : Option ErrVal
deriving Repr, DecidableEq

/-- A signup or signin request body. -/
structure SignUpReq where
  name : String
  email : String
  password : String
deriving Repr, DecidableEq

/-- The data object of a successful auth response: the token and the user
document as the controller passes it to res.json. -/
structure AuthData where
  token : String
  user : UserRec
deriving Repr, DecidableEq

/-- A successful auth response, as assembled by the controller. -/
structure AuthResponse where
  status : Int
  success : Bool
  message : String
  data : AuthData
deriving Repr, DecidableEq

/-- The try block of signUp: look up the email, throw Conflict when taken,
hash, create inside the session (staged), sign the token, commit.  Each
fallible step first consults its injectable fault. -/
def signUpTry (faults : StepFaults) (db : DB) (req : SignUpReq) :
    Except ErrVal (AuthResponse × UserRec) :=
  match faults.findFault with
  | some e => .error e
  | none =>
    if (db.users.find? (fun u => u.email == req.email)).isSome then
      .error (ErrVal.customError 409 "User already exists")
    else
      match faults.hashFault with
      | some e => .error e
      | none =>
        let hashed := modelHash req.password
        match faults.createFault with
        | some e => .error e
        | none =>
          let user : UserRec := ⟨freshId db, req.name, req.email, hashed⟩
          match faults.signFault with
          | some e => .error e
          | none =>
            let token := modelToken user.id
            match faults.commitFault with
            | some e => .error e
            | none =>
              .ok (⟨200, true, "User signed up successfully", ⟨token, user⟩⟩, user)

/-- The outcome of a signUp call: the response or the propagated error, the
resulting store, and the trace of session events. -/
structure SignUpOutcome where
  result : Except ErrVal AuthResponse
  db : DB
  events : List SessEv
deriving Repr

/-- The signUp controller: start the session and the transaction, run the
try block, commit on success (applying the staged create), abort in the
catch on any error (leaving the store untouched), and end the session in
the finally on every path. -/
def signUp (faults : StepFaults) (db : DB) (req : SignUpReq) : SignUpOutcome :=
  match signUpTry faults db req with
  | .ok (resp, user) =>
    { result := .ok resp
      db := ⟨db.users ++ [user]⟩
      events := [SessEv.startSession, SessEv.startTransaction,
                 SessEv.commitTransaction, SessEv.endSession] }
  | .error e =>
    { result := .error e
      db := db
      events := [SessEv.startSession, SessEv.startTransaction,
                 SessEv.abortTransaction, SessEv.endSession] }

/-- A signin request body. -/
structure SignInReq where
  email : String
  password : String
deriving Repr, DecidableEq

/-- The signIn controller: look up the user by email, compare the password
against the stored hash, and return the token together with the user
document as fetched. -/
def signIn (db : DB) (req : SignInReq) : Except ErrVal AuthResponse :=
  match db.users.find? (fun u => u.email == req.email) with
  | none => .error (ErrVal.customError 404 "No account found")
  | some user =>
    if modelCompare req.password user.password then
      .ok ⟨200, true, "User signed in successfully", ⟨modelToken user.id, user⟩⟩
    else
      .error (ErrVal.customError 401 "Incorrect password")

/-- The methods the Express response object provides (external collaborator;
its cookie-clearing method is named clearCookie — there is no method named
clearCookies, so invoking that name raises a TypeError). -/
def expressResponseMethods : List String :=
  ["append", "attachment", "cookie", "clearCookie", "download", "end",
   "format", "get", "json", "jsonp", "links", "location", "redirect",
   "render", "send", "sendFile", "sendStatus", "set", "status", "type",
   "vary"]

/-- Invoking a method by name on the Express response object: a TypeError
when no such method exists. -/
def callResMethod (methodName : String) : Except ErrVal Unit :=
  if expressResponseMethods.contains methodName then .ok ()
  else .error (ErrVal.jsRuntimeError ("res." ++ methodName ++ " is not a function"))

/-- The acknowledgement body of a sign-out. -/
structure SignOutAck where
  status : Int
  success : Bool
  message : String
deriving Repr, DecidableEq

/-- The signOut controller: it first invokes res.clearCookies, then would
answer 200 with a success body; a thrown error is caught and forwarded to
the Error Normalizer. -/
def signOut : Except ErrVal SignOutAck :=
  match callResMethod "clearCookies" with
  | .error e => .error e
  | .ok _ => .ok ⟨200, true, "User signed out successfully"⟩

/-- The JsError shape of a thrown ErrVal once it reaches the middleware: a
domain error carries its status code and message, a runtime TypeError
carries only name, message and stack. -/
def jsErrorOfVal (e : ErrVal) : JsError :=
  match e with
  | ErrVal.customError c m => ⟨true, some c, some m, none, none, none, [], "stacktrace"⟩
  | ErrVal.jsRuntimeError m => ⟨false, none, some m, some "TypeError", none, none, [], "stacktrace"⟩

/-!
Concrete inputs used by the closed witness and counterexample theorems.
-/

/-- A current instant: 2025-06-01. -/
def now0 : JSDate := ⟨2025, 5, 1, 0⟩

/-- An earlier current instant: 2024-01-01. -/
def nowEarly : JSDate := ⟨2024, 0, 1, 0⟩

/-- A subscription with neither frequency nor renewalDate. -/
def sub0 : Subscription :=
  ⟨some "Netflix", 499, "PHP", none, "entertainment", "card", "active",
   ⟨2024, 0, 15, 0⟩, none, "user1"⟩

/-- A subscription with an explicit renewalDate of 2025-01-01. -/
def sub1 : Subscription :=
  ⟨some "Journal", 120, "PHP", some "yearly", "news", "card", "active",
   ⟨2024, 0, 1, 0⟩, some ⟨2025, 0, 1, 0⟩, "user1"⟩

/-- A monthly subscription with no renewalDate, starting 2024-01-31. -/
def sub2 : Subscription :=
  ⟨some "Gym", 999, "PHP", some "monthly", "lifestyle", "cash", "active",
   ⟨2024, 0, 31, 0⟩, none, "user2"⟩

/-- A subscription with renewalDate equal to its startDate. -/
def sub3 : Subscription :=
  ⟨some "Mag", 50, "PHP", none, "news", "card", "active",
   ⟨2024, 2, 10, 0⟩, some ⟨2024, 2, 10, 0⟩, "user3"⟩

/-- A plain runtime error matched by none of the classification branches. -/
def err0 : JsError :=
  ⟨false, none, some "boom", none, none, none, [], "trace0"⟩

/-- A signup request. -/
def req0 : SignUpReq := ⟨"Alice", "a@b.com", "pw123"⟩

/-- The empty store. -/
def emptyDB : DB := ⟨[]⟩

/-- A store already holding the account of req0. -/
def db1 : DB := ⟨[⟨0, "Alice", "a@b.com", modelHash "pw123"⟩]⟩

/-- No injected step failures. -/
def noFaults : StepFaults := ⟨none, none, none, none, none⟩

/-- An injected write failure at the create step. -/
def faultCreate : StepFaults :=
  ⟨none, none, some (ErrVal.jsRuntimeError "write failed"), none, none⟩

/-- A signin request matching the account of db1. -/
def reqIn0 : SignInReq := ⟨"a@b.com", "pw123"⟩

/-- The response of the successful signup of req0 against the empty store. -/
def respUp0 : AuthResponse :=
  ⟨200, true, "User signed up successfully",
   ⟨modelToken 0, ⟨0, "Alice", "a@b.com", modelHash "pw123"⟩⟩⟩

/-- The response of the successful signin of reqIn0 against db1. -/
def respIn0 : AuthResponse :=
  ⟨200, true, "User signed in successfully",
   ⟨modelToken 0, ⟨0, "Alice", "a@b.com", modelHash "pw123"⟩⟩⟩

/-!
Theorems.  First the calendar sanity checks and helper lemmas, then one
theorem per claim with its witness or counterexample.
-/

/-- Sanity: the epoch is 1970-01-01. -/
theorem civilFromDays_epoch : civilFromDays 0 = (1970, 0, 1) := by decide

/-- Sanity: the day number of 1970-01-01 is 0. -/
theorem daysFromCivilG_epoch : daysFromCivilG 1970 0 1 = 0 := by decide

/-- Sanity: setMonth overflow, Jan 31 2025 advanced one month lands on
Mar 3 2025 (2025 is not a leap year). -/
theorem jsSetMonth_overflow :
    jsSetMonth ⟨2025, 0, 31, 0⟩ 1 = ⟨2025, 2, 3, 0⟩ := by decide

/-- Sanity: setFullYear on Feb 29 2024 plus one year lands on Mar 1 2025. -/
theorem jsSetFullYear_leap :
    jsSetFullYear ⟨2024, 1, 29, 0⟩ 2025 = ⟨2025, 2, 1, 0⟩ := by decide

/-- Sanity: the worked example of the spec, start 2024-01-01 with yearly
frequency seen at 2025-06-01, derives renewal 2025-01-01 and expires. -/
theorem preSave_spec_example :
    (preSave now0 ⟨none, 1, "PHP", some "yearly", "others", "card", "active",
      ⟨2024, 0, 1, 0⟩, none, "u"⟩).renewalDate = some ⟨2025, 0, 1, 0⟩ ∧
    (preSave now0 ⟨none, 1, "PHP", some "yearly", "others", "card", "active",
      ⟨2024, 0, 1, 0⟩, none, "u"⟩).status = "expired" := by decide

/-- The generalised day-number map is linear in the day component. -/
theorem daysFromCivilG_day_add (y m d k : Int) :
    daysFromCivilG y m (d + k) = daysFromCivilG y m d + k := by
  simp only [daysFromCivilG, daysFromCivilAux]
  ring

/-- The setDate call of the hook agrees with advancing along the day line. -/
theorem jsSetDate_addDays (dt : JSDate) (k : Int) :
    jsSetDate dt (dt.day + k) = addDays dt k := by
  simp only [jsSetDate, jsNorm, addDays, toDays, daysFromCivilG_day_add]

/-- The setMonth call of the hook agrees with advancing along the month
line. -/
theorem jsSetMonth_addCalendarMonths (dt : JSDate) (k : Int) :
    jsSetMonth dt (dt.month + k) = addCalendarMonths dt k := by
  have h1 : dt.year + (dt.month + k) / 12 = (12 * dt.year + dt.month + k) / 12 := by
    omega
  have h2 : (dt.month + k) % 12 = (12 * dt.year + dt.month + k) % 12 := by
    omega
  simp only [jsSetMonth, jsNorm, addCalendarMonths, monthIndex, daysFromCivilG]
  rw [h1, h2]

/-- The setFullYear call of the hook agrees with advancing the year. -/
theorem jsSetFullYear_addCalendarYears (dt : JSDate) (k : Int) :
    jsSetFullYear dt (dt.year + k) = addCalendarYears dt k := by
  simp only [jsSetFullYear, jsNorm, addCalendarYears]

/-- The expiry step never changes renewalDate. -/
theorem preSave_renewalDate (now : JSDate) (s : Subscription) :
    (preSave now s).renewalDate = (deriveRenewal s).renewalDate := by
  unfold preSave
  cases h : (deriveRenewal s).renewalDate with
  | none => simp [h]
  | some r =>
    simp only [h]
    split
    · simp [h]
    · exact h

/-- The derivation step only touches renewalDate. -/
theorem deriveRenewal_frame (s : Subscription) :
    (deriveRenewal s).name = s.name ∧ (deriveRenewal s).price = s.price ∧
    (deriveRenewal s).currency = s.currency ∧
    (deriveRenewal s).frequency = s.frequency ∧
    (deriveRenewal s).category = s.category ∧
    (deriveRenewal s).paymentMethod = s.paymentMethod ∧
    (deriveRenewal s).status = s.status ∧
    (deriveRenewal s).startDate = s.startDate ∧
    (deriveRenewal s).user = s.user := by
  unfold deriveRenewal
  split <;> simp

/-- C1 counterexample: with no renewalDate and no frequency, the pre-save
rule does not leave renewalDate unset; it ends up set to startDate (the
switch default leaves the copy of startDate untouched, but the copy was
already assigned to renewalDate). -/
theorem preSave_no_frequency_cex :
    sub0.renewalDate = none ∧ sub0.frequency = none ∧
    ¬ (preSave now0 sub0).renewalDate = none := by decide

/-- C1 (amended): for every Subscription saved with no renewalDate and a
frequency that is unset or unrecognized, the pre-save rule sets renewalDate
to a copy of startDate (the record ends up with renewalDate equal to
startDate), and no error is raised by this rule. -/
theorem preSave_unrecognized_frequency (now : JSDate) (s : Subscription)
    (h0 : s.renewalDate = none)
    (h1 : s.frequency ≠ some "daily") (h2 : s.frequency ≠ some "weekly")
    (h3 : s.frequency ≠ some "monthly") (h4 : s.frequency ≠ some "yearly") :
    (preSave now s).renewalDate = some s.startDate := by
  rw [preSave_renewalDate]
  unfold deriveRenewal
  rw [h0]
  simp [h1, h2, h3, h4]

/-- C1 witness: the amended rule applied to the concrete subscription with
neither frequency nor renewalDate. -/
theorem preSave_unrecognized_frequency_witness :
    (preSave now0 sub0).renewalDate = some sub0.startDate :=
  preSave_unrecognized_frequency now0 sub0 rfl (by decide) (by decide)
    (by decide) (by decide)

/-- C2: with renewalDate absent and a recognized frequency, the pre-save
rule sets renewalDate to startDate advanced by one unit of frequency: daily
adds one day, weekly adds seven days, monthly adds one calendar month,
yearly adds one calendar year. -/
theorem preSave_derives_renewal (now : JSDate) (s : Subscription)
    (h0 : s.renewalDate = none) :
    (s.frequency = some "daily" →
      (preSave now s).renewalDate = some (addDays s.startDate 1)) ∧
    (s.frequency = some "weekly" →
      (preSave now s).renewalDate = some (addDays s.startDate 7)) ∧
    (s.frequency = some "monthly" →
      (preSave now s).renewalDate = some (addCalendarMonths s.startDate 1)) ∧
    (s.frequency = some "yearly" →
      (preSave now s).renewalDate = some (addCalendarYears s.startDate 1)) := by
  refine ⟨fun hf => ?_, fun hf => ?_, fun hf => ?_, fun hf => ?_⟩ <;>
    rw [preSave_renewalDate] <;>
    unfold deriveRenewal <;>
    rw [h0] <;>
    simp [hf, jsSetDate_addDays, jsSetMonth_addCalendarMonths,
      jsSetFullYear_addCalendarYears]

/-- C2 witness: the monthly derivation on a subscription starting
2024-01-31, whose derived renewal overflows February into 2024-03-02. -/
theorem preSave_derives_renewal_witness :
    (preSave now0 sub2).renewalDate = some (addCalendarMonths sub2.startDate 1) ∧
    addCalendarMonths sub2.startDate 1 = ⟨2024, 2, 2, 0⟩ :=
  ⟨(preSave_derives_renewal now0 sub2 rfl).2.2.1 rfl, by decide⟩

/-- C3: after derivation, a renewalDate strictly before the current instant
forces the status to expired regardless of its previous value, and a
renewalDate not before the current instant leaves the status unchanged by
this step. -/
theorem preSave_expiry (now : JSDate) (s : Subscription) (r : JSDate)
    (h : (preSave now s).renewalDate = some r) :
    (timestamp r < timestamp now → (preSave now s).status = "expired") ∧
    (timestamp now ≤ timestamp r → (preSave now s).status = s.status) := by
  rw [preSave_renewalDate] at h
  have hst := (deriveRenewal_frame s).2.2.2.2.2.2.1
  constructor
  · intro hlt
    simp only [preSave, h]
    rw [if_pos hlt]
  · intro hge
    simp only [preSave, h]
    rw [if_neg (not_lt.mpr hge)]
    exact hst

/-- C3 witness: the explicit renewal 2025-01-01 of sub1 is past at
2025-06-01, so the status is forced to expired; at 2024-01-01 it is not
past, so the status stays active. -/
theorem preSave_expiry_witness :
    (preSave now0 sub1).status = "expired" ∧
    (preSave nowEarly sub1).status = sub1.status :=
  ⟨(preSave_expiry now0 sub1 ⟨2025, 0, 1, 0⟩ (by decide)).1 (by decide),
   (preSave_expiry nowEarly sub1 ⟨2025, 0, 1, 0⟩ (by decide)).2 (by decide)⟩

/-- C4: a present renewalDate not strictly greater than startDate makes the
renewalDate validator of the schema report failure (the ODM then rejects
the write with a validation error), and a renewalDate strictly greater than
startDate passes it. -/
theorem validateRenewalDate_spec (s : Subscription) (v : JSDate)
    (h : s.renewalDate = some v) :
    (timestamp v ≤ timestamp s.startDate → validateRenewalDate s = false) ∧
    (timestamp s.startDate < timestamp v → validateRenewalDate s = true) := by
  unfold validateRenewalDate
  rw [h]
  constructor
  · intro hle
    simp [not_lt.mpr hle]
  · intro hlt
    simp [hlt]

/-- C4 witness: sub3 carries renewalDate equal to its startDate and fails
the validator; sub1 carries a later renewalDate and passes it. -/
theorem validateRenewalDate_spec_witness :
    validateRenewalDate sub3 = false ∧ validateRenewalDate sub1 = true :=
  ⟨(validateRenewalDate_spec sub3 ⟨2024, 2, 10, 0⟩ (by decide)).1 (by decide),
   (validateRenewalDate_spec sub1 ⟨2025, 0, 1, 0⟩ (by decide)).2 (by decide)⟩

/-- C10: the pre-save hook only ever modifies renewalDate and status; every
other field is returned unchanged (in particular startDate, the derivation
working on a copy), and the only status value the hook assigns is
expired. -/
theorem preSave_frame (now : JSDate) (s : Subscription) :
    (preSave now s).name = s.name ∧ (preSave now s).price = s.price ∧
    (preSave now s).currency = s.currency ∧
    (preSave now s).frequency = s.frequency ∧
    (preSave now s).category = s.category ∧
    (preSave now s).paymentMethod = s.paymentMethod ∧
    (preSave now s).startDate = s.startDate ∧
    (preSave now s).user = s.user ∧
    ((preSave now s).status = s.status ∨ (preSave now s).status = "expired") := by
  obtain ⟨h1, h2, h3, h4, h5, h6, h7, h8, h9⟩ := deriveRenewal_frame s
  simp only [preSave]
  cases hr : (deriveRenewal s).renewalDate with
  | none => simp [hr, h1, h2, h3, h4, h5, h6, h7, h8, h9]
  | some r =>
    by_cases hlt : timestamp r < timestamp now
    · simp [hr, hlt, h1, h2, h3, h4, h5, h6, h8, h9]
    · simp [hr, hlt, h1, h2, h3, h4, h5, h6, h7, h8, h9]

/-- C7: an error matching none of the four classification branches (not a
domain error carrying a status code, not a CastError, not a duplicate-key
error, not a ValidationError) normalizes to status 500, with its own
message or the generic fallback as the body message. -/
theorem errorMiddleware_fallback (env : NodeEnv) (err : JsError)
    (h1 : err.isCustomError = false)
    (h2 : err.name ≠ some "CastError")
    (h3 : ¬ (err.code = some 11000 ∧ err.keyValue.isSome))
    (h4 : err.name ≠ some "ValidationError")
    (h5 : err.statusCode = none) :
    (errorMiddleware env err).status = 500 ∧
    (errorMiddleware env err).message = jsOrStr err.message "Internal Server Error" := by
  unfold errorMiddleware
  simp [h1, h2, h3, h4, h5, jsOrNum]

/-- C7 witness: the plain runtime error err0 normalizes to 500 with its own
message. -/
theorem errorMiddleware_fallback_witness :
    (errorMiddleware NodeEnv.production err0).status = 500 ∧
    (errorMiddleware NodeEnv.production err0).message = "boom" := by
  have h := errorMiddleware_fallback NodeEnv.production err0 rfl (by decide)
    (by decide) (by decide) rfl
  exact ⟨h.1, h.2.trans (by decide)⟩

/-- C8: in the non-production (development) runtime mode the normalized
response body additionally carries the raw stack trace and the original
error; in production mode it carries neither. -/
theorem errorMiddleware_stack_modes (env : NodeEnv) (err : JsError) :
    (env = NodeEnv.production →
      (errorMiddleware env err).stack = none ∧
      (errorMiddleware env err).originalError = none) ∧
    (env ≠ NodeEnv.production →
      (errorMiddleware env err).stack = some err.stack ∧
      (errorMiddleware env err).originalError = some err) := by
  cases env <;> simp [errorMiddleware]

/-- C8 witness: the concrete error err0 normalized in both modes. -/
theorem errorMiddleware_stack_modes_witness :
    (errorMiddleware NodeEnv.production err0).stack = none ∧
    (errorMiddleware NodeEnv.development err0).stack = some err0.stack :=
  ⟨((errorMiddleware_stack_modes NodeEnv.production err0).1 rfl).1,
   ((errorMiddleware_stack_modes NodeEnv.development err0).2 (by decide)).1⟩

/-- The try block of signUp only succeeds with the canonical response and
created record. -/
theorem signUpTry_ok (faults : StepFaults) (db : DB) (req : SignUpReq)
    (resp : AuthResponse) (user : UserRec)
    (h : signUpTry faults db req = Except.ok (resp, user)) :
    resp = ⟨200, true, "User signed up successfully",
      ⟨modelToken (freshId db), ⟨freshId db, req.name, req.email, modelHash req.password⟩⟩⟩ ∧
    user = ⟨freshId db, req.name, req.email, modelHash req.password⟩ := by
  unfold signUpTry at h
  repeat' split at h
  all_goals simp_all
  obtain ⟨ha, hb⟩ := h
  rw [← hb, ← ha]

/-- C5: signUp always releases the transactional session exactly once; a
request whose email already belongs to a stored User fails with the 409
Conflict domain error and persists nothing; and every error outcome aborts
the transaction, leaving the store exactly as before the call. -/
theorem signUp_transactional (faults : StepFaults) (db : DB) (req : SignUpReq) :
    (signUp faults db req).events.count SessEv.endSession = 1 ∧
    (faults.findFault = none → (∃ u, u ∈ db.users ∧ u.email = req.email) →
      (signUp faults db req).result =
        Except.error (ErrVal.customError 409 "User already exists") ∧
      (signUp faults db req).db = db) ∧
    (∀ e, (signUp faults db req).result = Except.error e →
      SessEv.abortTransaction ∈ (signUp faults db req).events ∧
      (signUp faults db req).db = db) := by
  refine ⟨?_, ?_, ?_⟩
  · unfold signUp
    cases signUpTry faults db req with
    | ok v => rfl
    | error e => rfl
  · intro hf hex
    obtain ⟨u, hu, he⟩ := hex
    have hfind : (db.users.find? (fun v => v.email == req.email)).isSome :=
      List.find?_isSome.mpr ⟨u, hu, by simp [he]⟩
    unfold signUp signUpTry
    rw [hf]
    simp [hfind]
  · intro e
    unfold signUp
    cases signUpTry faults db req with
    | ok v =>
      intro he
      simp at he
    | error e2 =>
      intro he
      exact ⟨by simp, rfl⟩

/-- C5 witness: the conflict path on db1, the injected write failure on the
empty store, and the single session release on the happy path. -/
theorem signUp_transactional_witness :
    (signUp noFaults db1 req0).result =
      Except.error (ErrVal.customError 409 "User already exists") ∧
    (signUp noFaults db1 req0).db = db1 ∧
    SessEv.abortTransaction ∈ (signUp faultCreate emptyDB req0).events ∧
    (signUp faultCreate emptyDB req0).db = emptyDB ∧
    (signUp noFaults emptyDB req0).events.count SessEv.endSession = 1 := by
  have hc := (signUp_transactional noFaults db1 req0).2.1 rfl
    ⟨⟨0, "Alice", "a@b.com", modelHash "pw123"⟩, by decide, rfl⟩
  have ha := (signUp_transactional faultCreate emptyDB req0).2.2
    (ErrVal.jsRuntimeError "write failed") (by rfl)
  exact ⟨hc.1, hc.2, ha.1, ha.2, (signUp_transactional noFaults emptyDB req0).1⟩

/-- C6 counterexample: the successful signup of req0 and the successful
signin of reqIn0 both return the full user document, whose password field
holds the stored credential hash, contradicting "never contains the stored
password hash". -/
theorem auth_response_contains_hash_cex :
    (signUp noFaults emptyDB req0).result = Except.ok respUp0 ∧
    signIn db1 reqIn0 = Except.ok respIn0 ∧
    respUp0.data.user.password = modelHash "pw123" ∧
    respIn0.data.user.password = modelHash "pw123" :=
  ⟨rfl, rfl, rfl, rfl⟩

/-- C6 (amended): every successful signup and every successful signin
returns the token and the user public fields (identifier, name, email), but
through the full user document, whose password field carries the stored
credential hash. -/
theorem auth_success_payload (faults : StepFaults) (db : DB)
    (req : SignUpReq) (req2 : SignInReq) :
    (∀ resp, (signUp faults db req).result = Except.ok resp →
      resp.data.token = modelToken resp.data.user.id ∧
      resp.data.user.name = req.name ∧
      resp.data.user.email = req.email ∧
      resp.data.user.password = modelHash req.password) ∧
    (∀ resp, signIn db req2 = Except.ok resp →
      resp.data.token = modelToken resp.data.user.id ∧
      resp.data.user ∈ db.users ∧
      resp.data.user.email = req2.email ∧
      resp.data.user.password = modelHash req2.password) := by
  constructor
  · intro resp he
    cases h : signUpTry faults db req with
    | ok v =>
      obtain ⟨resp0, user0⟩ := v
      simp only [signUp, h] at he
      obtain ⟨h1, h2⟩ := signUpTry_ok faults db req resp0 user0 h
      subst h1
      subst h2
      cases he
      exact ⟨rfl, rfl, rfl, rfl⟩
    | error e =>
      simp only [signUp, h] at he
      cases he
  · intro resp he
    unfold signIn at he
    cases hf : db.users.find? (fun u => u.email == req2.email) with
    | none =>
      simp only [hf] at he
      cases he
    | some u =>
      simp only [hf] at he
      by_cases hcmp : modelCompare req2.password u.password
      · rw [if_pos hcmp] at he
        cases he
        refine ⟨rfl, List.mem_of_find?_eq_some hf, ?_, ?_⟩
        · have := List.find?_some hf
          simpa using this
        · have hpw : modelHash req2.password = u.password := by
            simpa [modelCompare] using hcmp
          exact hpw.symm
      · rw [if_neg hcmp] at he
        cases he

/-- C6 witness: the amended statement applied to the concrete signup of
req0 and the concrete signin of reqIn0. -/
theorem auth_success_payload_witness :
    respUp0.data.user.password = modelHash "pw123" ∧
    respIn0.data.user.password = modelHash "pw123" ∧
    respUp0.data.user.email = "a@b.com" ∧
    respIn0.data.user.email = "a@b.com" := by
  have h1 := (auth_success_payload noFaults emptyDB req0 reqIn0).1 respUp0 rfl
  have h2 := (auth_success_payload noFaults db1 req0 reqIn0).2 respIn0 rfl
  exact ⟨h1.2.2.2, h2.2.2.2, h1.2.2.1, h2.2.2.1⟩

/-- C9: sign-out does not return the unconditional success acknowledgement;
the call to res.clearCookies raises a TypeError (the Express method is
named clearCookie), which the catch forwards to the Error Normalizer, where
it yields a 500 response rather than the 200 success body. -/
theorem signOut_throws :
    signOut = Except.error
      (ErrVal.jsRuntimeError "res.clearCookies is not a function") ∧
    (errorMiddleware NodeEnv.production
      (jsErrorOfVal (ErrVal.jsRuntimeError
        "res.clearCookies is not a function"))).status = 500 :=
  ⟨rfl, rfl⟩
